import Mathlib

/-!
Verification of the MedTrack storefront chat/auth/socket client logic.

Shallow embedding of:
* `app/components/Chat/ChatMessages.tsx` — optimistic-message reconciliation,
  delivery/read-status tracking, send/retry handlers;
* `app/services/chat.service.ts` — API response-envelope normalization
  (`getMessages`, `sendMessage`);
* `app/services/socket.service.ts` — module-level socket singleton and
  its emit/subscribe surface;
* the auth guard (`authService.isAuthenticated` / `getUserInfo`,
  `AuthLayout`, the pharmacy patient-chat page guard).

Conventions of the embedding:
* JavaScript timestamps (`Date.now()`, `new Date(...)` comparisons) are
  modelled as `Int` epoch milliseconds; ISO strings written by
  `new Date().toISOString()` are passed in as an opaque `nowIso : String`.
* JavaScript truthiness on optional strings (`undefined` and `""` are
  falsy) is modelled by `jsFalsyStr`, and the `a || b` idiom by
  `jsOrOptStr` / `jsOrStr`.
* `fetch`/JSON outcomes are modelled by `HttpOutcome`, with the
  heterogeneous body shapes the service recognizes as explicit inductive
  envelopes.
-/

namespace MedTrack

/-- JS `String.prototype.startsWith`, rendered over the character list so
that it evaluates inside the kernel. -/
def strStartsWith (s pre : String) : Bool :=
  pre.data.isPrefixOf s.data

/-- JS `String.prototype.trim` (strip leading and trailing whitespace),
rendered over the character list so that it evaluates inside the kernel. -/
def jsTrim (s : String) : String :=
  ⟨List.dropWhile Char.isWhitespace ((List.dropWhile Char.isWhitespace s.data.reverse).reverse)⟩

/-- JavaScript truthiness test for an optional string: `undefined` and the
empty string are falsy. -/
def jsFalsyStr : Option String → Bool
  | none => true
  | some s => s == ""

/-- The JavaScript `a || b` idiom on two optional strings. -/
def jsOrOptStr (a b : Option String) : Option String :=
  if jsFalsyStr a then b else a

/-- The JavaScript `a || d` idiom producing a plain string default. -/
def jsOrStr (a : Option String) (d : String) : String :=
  match a with
  | none => d
  | some s => if s == "" then d else s

/-- `sentStatus` values of `ChatMessages.tsx` (`"sending" | "sent" |
"delivered" | "error"`; the absent field is `Option.none`). -/
inductive SentStatus
  | sending
  | sent
  | delivered
  | error
deriving DecidableEq

/-- The client-side `Message` record of `ChatMessages.tsx` (the
`chat.service.ts` `Message` is the same shape with `sentStatus` absent).
`createdAt` is epoch milliseconds; `readAt` is an optional ISO string. -/
structure Message where
  _id : String
  conversation : String
  sender : String
  senderName : String
  content : String
  createdAt : Int
  readAt : Option String
  sentStatus : Option SentStatus
deriving DecidableEq

/-- Placeholder used only as the (never-reached) default of `List.getD`. -/
def dummyMsg : Message :=
  { _id := "", conversation := "", sender := "", senderName := "", content := ""
  , createdAt := 0, readAt := none, sentStatus := none }

/-- `Array.prototype.findIndex` on a list: index of the first element
satisfying `p`, or `none` (JS `-1`). -/
def findIndex (p : Message → Bool) : List Message → Option Nat
  | [] => none
  | m :: ms => if p m then some 0 else (findIndex p ms).map (· + 1)

/-- Index-aware map used to model the `for` loops of `handleNewMessage`
that rewrite every position except the matched one. -/
def mapWithIndex (f : Nat → Message → Message) : Nat → List Message → List Message
  | _, [] => []
  | i, m :: ms => f i m :: mapWithIndex f (i + 1) ms

/-- The duplicate test of `handleNewMessage`'s `findIndex`
(ChatMessages.tsx lines 178-190): exact id match, or a `temp-` message
with the same content and sender, or any message with the same content
and sender created within the last 5 seconds (`now` in ms). -/
def dupPred (now : Int) (nm : Message) (m : Message) : Bool :=
  m._id == nm._id ||
  (strStartsWith m._id "temp-" && m.content == nm.content && m.sender == nm.sender) ||
  (m.content == nm.content && m.sender == nm.sender && decide (now - 5000 < m.createdAt))

/-- The status upgrade applied to the current user's `"sent"` or
status-less messages inside `handleNewMessage` (lines 214-226 and
236-247). -/
def markDelivered (uid : String) (m : Message) : Message :=
  if m.sender == uid && (m.sentStatus == some SentStatus.sent || m.sentStatus == none) then
    { m with sentStatus := some .delivered }
  else m

/-- The `setMessages` updater of `handleNewMessage`
(ChatMessages.tsx lines 170-252) for an incoming socket message `nm`
already standardized to the client shape: replace the first duplicate in
place (preserving a truthy `readAt`, forcing `"delivered"`) and upgrade
the current user's other `"sent"`/status-less messages, or append `nm`
(upgrading older own messages only when `nm` is from the other party). -/
def handleNewMessageUpdate (uid : String) (now : Int) (nm : Message)
    (prev : List Message) : List Message :=
  match findIndex (dupPred now nm) prev with
  | some idx =>
    let old := prev.getD idx dummyMsg
    let repl : Message :=
      { nm with readAt := jsOrOptStr old.readAt nm.readAt, sentStatus := some .delivered }
    mapWithIndex (fun i m => if i == idx then m else markDelivered uid m) 0 (prev.set idx repl)
  | none =>
    if nm.sender == uid then prev ++ [nm]
    else prev.map (markDelivered uid) ++ [nm]

/-- The `setMessages` updater of the `messages_read` listener
(ChatMessages.tsx lines 269-288): when the event's conversation id equals
the current one, stamp `readAt` on the current user's messages whose
`readAt` is falsy; otherwise leave the list alone. -/
def handleMessagesRead (uid nowIso eventCid cid : String)
    (prev : List Message) : List Message :=
  if eventCid == cid then
    prev.map (fun m =>
      if m.sender == uid && jsFalsyStr m.readAt then { m with readAt := some nowIso } else m)
  else prev

/-- Result of the synchronous prefix of `handleSendMessage`
(ChatMessages.tsx lines 321-344): the new message list, the input field's
content after the handler, and the `(conversationId, content)` argument
pair passed to `chatService.sendMessage` when a request is issued. -/
structure SendStart where
  messages : List Message
  draft : String
  request : Option (String × String)
deriving DecidableEq

/-- The synchronous prefix of `handleSendMessage`: bail out when the
trimmed input or the conversation id is empty; otherwise append a
`temp-${Date.now()}` optimistic message with status `"sending"`, clear
the input, and issue the request. -/
def handleSendMessageStart (uid : String) (username : Option String) (nowMs : Int)
    (cid draft : String) (prev : List Message) : SendStart :=
  if jsTrim draft == "" || cid == "" then ⟨prev, draft, none⟩
  else
    let tempMessage : Message :=
      { _id := "temp-" ++ toString nowMs
      , conversation := cid
      , sender := uid
      , senderName := jsOrStr username "You"
      , content := jsTrim draft
      , createdAt := nowMs
      , readAt := none
      , sentStatus := some .sending }
    ⟨prev ++ [tempMessage], "", some (cid, jsTrim draft)⟩

/-- The `setTimeout` updater of `handleSendMessage`'s success path
(ChatMessages.tsx lines 362-389): if the temp message is gone or the
server message's id is already present, the socket handled it — do
nothing; otherwise overwrite the temp message with the server-confirmed
message, marked `"sent"`. -/
def applySendSuccess (tempId : String) (sent : Message) (l : List Message) : List Message :=
  let tempMessageExists := l.any (fun m => m._id == tempId)
  let serverMessageExists := l.any (fun m => m._id == sent._id)
  if !tempMessageExists || serverMessageExists then l
  else l.map (fun m => if m._id == tempId then { sent with sentStatus := some .sent } else m)

/-- The updater of `handleSendMessage`'s null-response and catch paths
(ChatMessages.tsx lines 392-399 and 407-414): flip the temp message to
`"error"`. -/
def handleSendFailure (tempId : String) (l : List Message) : List Message :=
  l.map (fun m => if m._id == tempId then { m with sentStatus := some .error } else m)

/-- First updater of `handleRetryMessage` (lines 429-436): flip the
retried message back to `"sending"`. -/
def handleRetryStart (messageId : String) (l : List Message) : List Message :=
  l.map (fun m => if m._id == messageId then { m with sentStatus := some .sending } else m)

/-- Success updater of `handleRetryMessage` (lines 449-459): replace the
retried message with the server-confirmed one, marked `"sent"`. -/
def handleRetrySuccess (messageId : String) (sent : Message) (l : List Message) : List Message :=
  l.map (fun m => if m._id == messageId then { sent with sentStatus := some .sent } else m)

/-- Failure updater of `handleRetryMessage` (lines 462-469 and 476-483):
flip the retried message back to `"error"`. -/
def handleRetryFailure (messageId : String) (l : List Message) : List Message :=
  l.map (fun m => if m._id == messageId then { m with sentStatus := some .error } else m)

/-- Outcome of one `chatService.sendMessage` call as observed by the
component: a message, `null`, or a thrown error. -/
inductive SendOutcome
  | ok (sent : Message)
  | nullResult
  | threw
deriving DecidableEq

/-- Result of a whole submit or retry: final message list, number of
`chatService.sendMessage` calls made, and the content sent (if any). -/
structure SubmitResult where
  messages : List Message
  sendCalls : Nat
  sentContent : Option String
deriving DecidableEq

/-- One whole `handleSendMessage` run (no concurrent socket events
between the optimistic append and the outcome): the guard branch makes
no request; otherwise exactly one `sendMessage` call is made and its
outcome is applied by the corresponding updater. -/
def handleSendMessageFlow (uid : String) (username : Option String) (nowMs : Int)
    (cid draft : String) (outcome : SendOutcome) (prev : List Message) : SubmitResult :=
  let start := handleSendMessageStart uid username nowMs cid draft prev
  match start.request with
  | none => ⟨start.messages, 0, none⟩
  | some (_, content) =>
    let tempId := "temp-" ++ toString nowMs
    match outcome with
    | .ok sent => ⟨applySendSuccess tempId sent start.messages, 1, some content⟩
    | .nullResult => ⟨handleSendFailure tempId start.messages, 1, some content⟩
    | .threw => ⟨handleSendFailure tempId start.messages, 1, some content⟩

/-- One whole `handleRetryMessage` run (lines 427-491): flip the message
to `"sending"`, make exactly one `sendMessage` call with the given
content (the UI passes the failed message's own `content`, line 591),
and apply the outcome's updater. -/
def handleRetryMessageFlow (messageId content : String) (outcome : SendOutcome)
    (prev : List Message) : SubmitResult :=
  let started := handleRetryStart messageId prev
  match outcome with
  | .ok sent => ⟨handleRetrySuccess messageId sent started, 1, some content⟩
  | .nullResult => ⟨handleRetryFailure messageId started, 1, some content⟩
  | .threw => ⟨handleRetryFailure messageId started, 1, some content⟩

/-! ### chat.service.ts -/

/-- The backend user object of `chat.service.ts` (`ApiUser`); `username`
is optional and may be empty. -/
structure ApiUser where
  _id : String
  username : Option String
  firstName : String
  lastName : String
  userType : String
deriving DecidableEq

/-- The backend message object of `chat.service.ts` (`ApiMessage`). -/
structure ApiMessage where
  _id : String
  sender : ApiUser
  receiver : ApiUser
  message : String
  read : Bool
  createdAt : Int
deriving DecidableEq

/-- The per-message transformation shared by `getMessages` (lines 352-362)
and `sendMessage` (lines 470-480): `content` is the API `message`,
`sender` the sender's id, `senderName` the username or else
`"firstName lastName"`, `conversation` the requested id, and `readAt` the
current time iff `read` is true. -/
def apiToClientMessage (cid nowIso : String) (msg : ApiMessage) : Message :=
  { _id := msg._id
  , conversation := cid
  , sender := msg.sender._id
  , senderName := jsOrStr msg.sender.username (msg.sender.firstName ++ " " ++ msg.sender.lastName)
  , content := msg.message
  , createdAt := msg.createdAt
  , readAt := if msg.read then some nowIso else none
  , sentStatus := none }

/-- Outcome of a `fetch` + `response.json()` round trip: parsed body,
OK status but unparseable JSON, non-OK HTTP status, or a rejected fetch. -/
inductive HttpOutcome (β : Type)
  | ok (body : β)
  | okBadJson
  | notOk
  | networkError
deriving DecidableEq

/-- The response-body shapes `getMessages` recognizes (lines 331-349):
`{messages: [...]}`, a bare array, `{data: [...]}`, or anything else. -/
inductive GetMessagesBody
  | withMessages (msgs : List ApiMessage)
  | bareArray (msgs : List ApiMessage)
  | withData (msgs : List ApiMessage)
  | other
deriving DecidableEq

/-- `chatService.getMessages` (chat.service.ts lines 290-372) as a pure
function of the HTTP outcome. Every failure path (`!conversationId`,
thrown non-OK error, unparseable JSON, unrecognized shape, network
error) is caught and yields `[]`; every recognized envelope is mapped by
`apiToClientMessage`. -/
def getMessages (cid nowIso : String) (resp : HttpOutcome GetMessagesBody) : List Message :=
  if cid == "" then []
  else
    match resp with
    | .ok (.withMessages msgs) => msgs.map (apiToClientMessage cid nowIso)
    | .ok (.bareArray msgs) => msgs.map (apiToClientMessage cid nowIso)
    | .ok (.withData msgs) => msgs.map (apiToClientMessage cid nowIso)
    | .ok .other => []
    | .okBadJson => []
    | .notOk => []
    | .networkError => []

/-- The decoded JWT of `auth.service` (`DecodedToken`); `getUserInfo`
copies `id` into `_id`. -/
structure DecodedToken where
  id : String
  _id : String
  email : String
  username : String
  userType : String
  firstName : String
  lastName : String
  exp : Int
deriving DecidableEq

/-- The response-body shapes `sendMessage` distinguishes (lines 430-461):
a top-level message object passing the guard
(`data._id && data.sender && typeof data.message === "string"`), the same
wrapped under `data` (guarded only by `data.data._id`), a body with a
bare success indicator (`success === true` or
`message === "Message sent successfully"`), or anything else. -/
inductive SendMessageBody
  | topLevel (m : ApiMessage)
  | wrapped (m : ApiMessage)
  | successOnly
  | other
deriving DecidableEq

/-- `chatService.sendMessage` (chat.service.ts lines 375-487) as a pure
function: `Except.error` models a thrown error (the catch block
rethrows), `Except.ok none` the `null` returns, and the success-indicator
branch fabricates a `temp-` client message from the current user
(`user` is `authService.getUserInfo()`). -/
def sendMessage (user : Option DecodedToken) (nowMs : Int) (nowIso cid content : String)
    (resp : HttpOutcome SendMessageBody) : Except String (Option Message) :=
  if cid == "" then .ok none
  else
    match resp with
    | .notOk => .error "Failed to send message"
    | .networkError => .error "network error"
    | .okBadJson => .ok none
    | .ok (.topLevel m) => .ok (some (apiToClientMessage cid nowIso m))
    | .ok (.wrapped m) => .ok (some (apiToClientMessage cid nowIso m))
    | .ok .successOnly => .ok (some
        { _id := "temp-" ++ toString nowMs
        , conversation := cid
        , sender := jsOrStr (user.map (fun u => u._id)) ""
        , senderName := jsOrStr (user.map (fun u => u.username)) "You"
        , content := content
        , createdAt := nowMs
        , readAt := none
        , sentStatus := none })
    | .ok .other => .ok none

/-! ### auth.service and route guards -/

/-- `authService.isAuthenticated`: false when no token is stored or
decoding throws; otherwise `decoded.exp > Date.now() / 1000`, rendered
over the integers as `exp * 1000 > nowMs`. `decode` abstracts the
external `jwtDecode` (`none` models a throw). -/
def isAuthenticated (decode : String → Option DecodedToken)
    (storedToken : Option String) (nowMs : Int) : Bool :=
  match storedToken with
  | none => false
  | some t =>
    match decode t with
    | none => false
    | some d => decide (d.exp * 1000 > nowMs)

/-- `authService.getUserInfo`: decode the stored token and set
`_id := id`; `none` when no token is stored or decoding throws. -/
def getUserInfo (decode : String → Option DecodedToken)
    (storedToken : Option String) : Option DecodedToken :=
  match storedToken with
  | none => none
  | some t => (decode t).map (fun d => { d with _id := d.id })

/-- The `AuthLayout` effect (AuthLayout.tsx lines 17-22): navigate to
`/login` when `isAuthenticated` is false, else stay. -/
def authLayoutRedirect (decode : String → Option DecodedToken)
    (storedToken : Option String) (nowMs : Int) : Option String :=
  if isAuthenticated decode storedToken nowMs then none else some "/login"

/-- The pharmacy patient-chat page guard: navigate to `/dashboard` when
`getUserInfo` yields nothing or a user whose `userType` is not
`"pharmacy"`. -/
def pharmacyChatGuard (decode : String → Option DecodedToken)
    (storedToken : Option String) : Option String :=
  match getUserInfo decode storedToken with
  | none => some "/dashboard"
  | some u => if u.userType == "pharmacy" then none else some "/dashboard"

/-! ### socket.service.ts

The module-level mutable state (`let socket: Socket | null`) and the
effects on the socket.io connection are made explicit: `SockSt.socket`
is the handle (a fresh `Nat` identifies each created connection),
`token` is what `authService.getToken()` would return, and the `emitted` /
`subscribed` logs record the `socket.emit` / `socket.on` calls made by
the service's public functions (the internal `connect` /
`connect_error` / `disconnect` lifecycle handlers attached inside
`initializeSocket` are not part of that surface and are not logged). -/

/-- Payload of a `socket.emit` call made by the service. -/
inductive ReminderAction
  | taken
  | snooze
  | missed
deriving DecidableEq

/-- Payloads the socket service emits: a bare conversation id, or the
`reminder_response` object. -/
inductive EmitPayload
  | conversationId (cid : String)
  | reminderResponse (medicationId reminderId : String)
      (action : ReminderAction) (snoozeMinutes : Option Int)
deriving DecidableEq

/-- Explicit state of `socket.service.ts`. -/
structure SockSt where
  socket : Option Nat
  nextId : Nat
  token : Option String
  emitted : List (String × EmitPayload)
  subscribed : List String
deriving DecidableEq

/-- `initializeSocket` (socket.service.ts lines 53-80): return the
existing handle; else return `null` when no token is stored; else open
one new connection. -/
def initializeSocket (s : SockSt) : SockSt × Option Nat :=
  match s.socket with
  | some h => (s, some h)
  | none =>
    match s.token with
    | none => (s, none)
    | some _ => ({ s with socket := some s.nextId, nextId := s.nextId + 1 }, some s.nextId)

/-- `disconnectSocket` (lines 83-88): drop the handle if one exists. -/
def disconnectSocket (s : SockSt) : SockSt :=
  match s.socket with
  | some _ => { s with socket := none }
  | none => s

/-- The `socket || initializeSocket()` idiom shared by the emitting and
listener-setup functions. -/
def getOrInitSocket (s : SockSt) : SockSt × Option Nat :=
  match s.socket with
  | some h => (s, some h)
  | none => initializeSocket s

/-- `joinConversation` (lines 91-97): obtain or initialize the socket,
then emit `join_conversation` with the conversation id. -/
def joinConversation (cid : String) (s : SockSt) : SockSt × Bool :=
  match getOrInitSocket s with
  | (s1, none) => (s1, false)
  | (s1, some _) =>
    ({ s1 with emitted := s1.emitted ++ [("join_conversation", .conversationId cid)] }, true)

/-- `leaveConversation` (lines 100-104): return false when no handle
currently exists (no initialization attempt), else emit
`leave_conversation`. -/
def leaveConversation (cid : String) (s : SockSt) : SockSt × Bool :=
  match s.socket with
  | none => (s, false)
  | some _ =>
    ({ s with emitted := s.emitted ++ [("leave_conversation", .conversationId cid)] }, true)

/-- `sendReminderResponse` (lines 186-203): obtain or initialize the
socket, then emit `reminder_response`; `snoozeMinutes` is
`snoozeMinutes || 15` when the action is `"snooze"` (so `0` falls back
to 15) and `undefined` otherwise. -/
def sendReminderResponse (medicationId reminderId : String) (action : ReminderAction)
    (snoozeMinutes : Option Int) (s : SockSt) : SockSt × Bool :=
  match getOrInitSocket s with
  | (s1, none) => (s1, false)
  | (s1, some _) =>
    let sm : Option Int :=
      match action with
      | .snooze => some (match snoozeMinutes with
          | some n => if n == 0 then 15 else n
          | none => 15)
      | _ => none
    ({ s1 with emitted :=
        s1.emitted ++ [("reminder_response", .reminderResponse medicationId reminderId action sm)] },
      true)

/-- Common shape of the five `setup*Listener` functions: obtain or
initialize the socket, then `socket.on(event, callback)`. -/
def setupListenerOn (event : String) (s : SockSt) : SockSt × Bool :=
  match getOrInitSocket s with
  | (s1, none) => (s1, false)
  | (s1, some _) => ({ s1 with subscribed := s1.subscribed ++ [event] }, true)

/-- `setupMessageListener` (lines 107-143) subscribes to `new_message`. -/
def setupMessageListener (s : SockSt) : SockSt × Bool :=
  setupListenerOn "new_message" s

/-- `setupMessagesReadListener` (lines 152-160) subscribes to
`messages_read`. -/
def setupMessagesReadListener (s : SockSt) : SockSt × Bool :=
  setupListenerOn "messages_read" s

/-- `setupMedicationReminderListener` (lines 169-177) subscribes to
`medication_reminder`. -/
def setupMedicationReminderListener (s : SockSt) : SockSt × Bool :=
  setupListenerOn "medication_reminder" s

/-- `setupReminderUpdateListener` (lines 206-218) subscribes to
`reminder_update`. -/
def setupReminderUpdateListener (s : SockSt) : SockSt × Bool :=
  setupListenerOn "reminder_update" s

/-- `setupErrorListener` (lines 227-233) subscribes to `reminder_error`. -/
def setupErrorListener (s : SockSt) : SockSt × Bool :=
  setupListenerOn "reminder_error" s

/-! ### Basic lemmas on the list machinery -/

theorem length_mapWithIndex (f : Nat → Message → Message) (i : Nat) (l : List Message) :
    (mapWithIndex f i l).length = l.length := by
  induction l generalizing i with
  | nil => rfl
  | cons m ms ih => simp [mapWithIndex, ih]

theorem getElem?_mapWithIndex (f : Nat → Message → Message) (i j : Nat) (l : List Message) :
    (mapWithIndex f i l)[j]? = l[j]?.map (f (i + j)) := by
  induction l generalizing i j with
  | nil => simp [mapWithIndex]
  | cons m ms ih =>
    cases j with
    | zero => simp [mapWithIndex]
    | succ j' =>
      have h := ih (i + 1) j'
      have heq : i + 1 + j' = i + (j' + 1) := by omega
      rw [heq] at h
      simpa [mapWithIndex] using h

theorem findIndex_lt_length {p : Message → Bool} {l : List Message} {i : Nat}
    (h : findIndex p l = some i) : i < l.length := by
  induction l generalizing i with
  | nil => simp [findIndex] at h
  | cons m ms ih =>
    by_cases hp : p m
    · simp [findIndex, hp] at h
      simp [← h]
    · simp only [findIndex, hp, if_neg, Bool.false_eq_true, if_false] at h
      cases hms : findIndex p ms with
      | none => rw [hms] at h; simp at h
      | some j =>
        rw [hms] at h
        simp at h
        have := ih hms
        simp [← h]
        omega

theorem findIndex_eq_none_iff {p : Message → Bool} {l : List Message} :
    findIndex p l = none ↔ l.any p = false := by
  induction l with
  | nil => simp [findIndex]
  | cons m ms ih =>
    by_cases hp : p m <;> simp [findIndex, hp, ih, Option.map_eq_none']

theorem findIndex_first {p : Message → Bool} {l : List Message} {i : Nat}
    (h : findIndex p l = some i) :
    ∃ m, l[i]? = some m ∧ p m = true := by
  induction l generalizing i with
  | nil => simp [findIndex] at h
  | cons x ms ih =>
    by_cases hp : p x
    · simp [findIndex, hp] at h
      exact ⟨x, by simp [← h], hp⟩
    · simp only [findIndex, hp, Bool.false_eq_true, if_false] at h
      cases hms : findIndex p ms with
      | none => rw [hms] at h; simp at h
      | some j =>
        rw [hms] at h
        simp at h
        obtain ⟨m, hm, hpm⟩ := ih hms
        exact ⟨m, by simp [← h, hm], hpm⟩

/-! ### Characterization of `handleNewMessageUpdate` -/

theorem handleNewMessageUpdate_found_length {uid : String} {now : Int} {nm : Message}
    {prev : List Message} {idx : Nat} (h : findIndex (dupPred now nm) prev = some idx) :
    (handleNewMessageUpdate uid now nm prev).length = prev.length := by
  unfold handleNewMessageUpdate
  rw [h]
  simp [length_mapWithIndex]

theorem handleNewMessageUpdate_found_at {uid : String} {now : Int} {nm : Message}
    {prev : List Message} {idx : Nat} (h : findIndex (dupPred now nm) prev = some idx) :
    (handleNewMessageUpdate uid now nm prev)[idx]? =
      some { nm with readAt := jsOrOptStr (prev.getD idx dummyMsg).readAt nm.readAt
                   , sentStatus := some .delivered } := by
  have hlt := findIndex_lt_length h
  unfold handleNewMessageUpdate
  rw [h, getElem?_mapWithIndex]
  simp [List.getElem?_set, hlt]

theorem handleNewMessageUpdate_found_away {uid : String} {now : Int} {nm : Message}
    {prev : List Message} {idx j : Nat} (h : findIndex (dupPred now nm) prev = some idx)
    (hne : j ≠ idx) :
    (handleNewMessageUpdate uid now nm prev)[j]? = prev[j]?.map (markDelivered uid) := by
  unfold handleNewMessageUpdate
  rw [h, getElem?_mapWithIndex]
  simp [List.getElem?_set, hne, Ne.symm hne]

theorem handleNewMessageUpdate_none_eq {uid : String} {now : Int} {nm : Message}
    {prev : List Message} (h : findIndex (dupPred now nm) prev = none) :
    handleNewMessageUpdate uid now nm prev =
      (if nm.sender == uid then prev else prev.map (markDelivered uid)) ++ [nm] := by
  unfold handleNewMessageUpdate
  rw [h]
  by_cases hs : nm.sender == uid <;> simp [hs]

/-! ### C1 — socket-message deduplication -/

/-- C1 (amended): for an incoming socket message `nm` handled for the
current conversation, if some existing message matches it — equal `_id`,
or a `temp-` optimistic message with the same content and sender, or a
message with the same content and sender whose `createdAt` is within the
last 5 seconds — then the *first* such message is replaced in place and
the list length is unchanged, every other position being at most
status-upgraded; otherwise exactly one new message is appended. (The
original claim's consequence that the temp message and its echo never
coexist fails when an earlier message also matches; see the
counterexample.) -/
theorem chat_dedup_replace_or_append (uid : String) (now : Int) (nm : Message)
    (prev : List Message) :
    ((findIndex (dupPred now nm) prev).isSome = prev.any (dupPred now nm)) ∧
    (∀ idx, findIndex (dupPred now nm) prev = some idx →
      (handleNewMessageUpdate uid now nm prev).length = prev.length ∧
      (handleNewMessageUpdate uid now nm prev)[idx]? =
        some { nm with readAt := jsOrOptStr (prev.getD idx dummyMsg).readAt nm.readAt
                     , sentStatus := some .delivered } ∧
      (∀ j, j ≠ idx →
        (handleNewMessageUpdate uid now nm prev)[j]? = prev[j]?.map (markDelivered uid))) ∧
    (prev.any (dupPred now nm) = false →
      (handleNewMessageUpdate uid now nm prev).length = prev.length + 1 ∧
      (handleNewMessageUpdate uid now nm prev).getLast? = some nm) := by
  refine ⟨?_, ?_, ?_⟩
  · cases hf : findIndex (dupPred now nm) prev with
    | none => simp [findIndex_eq_none_iff.mp hf]
    | some i =>
      cases hany : prev.any (dupPred now nm) with
      | false =>
        have hn := findIndex_eq_none_iff.mpr hany
        rw [hn] at hf
        cases hf
      | true => simp
  · intro idx h
    exact ⟨handleNewMessageUpdate_found_length h, handleNewMessageUpdate_found_at h,
      fun j hj => handleNewMessageUpdate_found_away h hj⟩
  · intro hany
    have hnone := findIndex_eq_none_iff.mpr hany
    rw [handleNewMessageUpdate_none_eq hnone]
    constructor
    · by_cases hs : nm.sender == uid <;> simp [hs]
    · simp

/-- A regular message with the same content and sender as the echo,
created 1 second before the update time. -/
def dupRecentMsg : Message :=
  { _id := "m1", conversation := "c", sender := "u", senderName := "Alice"
  , content := "hi", createdAt := 9000, readAt := none, sentStatus := none }

/-- The optimistic temp message still awaiting its echo. -/
def pendingTempMsg : Message :=
  { _id := "temp-1", conversation := "c", sender := "u", senderName := "You"
  , content := "hi", createdAt := 9500, readAt := none, sentStatus := some .sending }

/-- The server/socket echo of the temp message. -/
def socketEchoMsg : Message :=
  { _id := "m2", conversation := "c", sender := "u", senderName := "Alice"
  , content := "hi", createdAt := 9600, readAt := none, sentStatus := some .delivered }

/-- C1 counterexample: when a recent message with the same content and
sender precedes the temp message, `findIndex` matches the earlier one,
so after the update the list still contains both the optimistic
`temp-` message and the echo (with its server `_id`) — refuting the
claim's "never contains both" consequence. -/
theorem chat_dedup_keeps_zombie_temp :
    ((handleNewMessageUpdate "u" 10000 socketEchoMsg [dupRecentMsg, pendingTempMsg]).any
      (fun m => strStartsWith m._id "temp-" && m.content == socketEchoMsg.content
        && m.sender == socketEchoMsg.sender) = true) ∧
    ((handleNewMessageUpdate "u" 10000 socketEchoMsg [dupRecentMsg, pendingTempMsg]).any
      (fun m => m._id == socketEchoMsg._id) = true) := by decide

/-- C1 witness: the echo of a lone pending temp message replaces it in
place, leaving a one-element list headed by the delivered echo. -/
theorem chat_dedup_replace_or_append_witness :
    (handleNewMessageUpdate "u" 10000 socketEchoMsg [pendingTempMsg]).length = 1 ∧
    (handleNewMessageUpdate "u" 10000 socketEchoMsg [pendingTempMsg])[0]? =
      some { socketEchoMsg with readAt := none, sentStatus := some .delivered } := by
  have h := chat_dedup_replace_or_append "u" 10000 socketEchoMsg [pendingTempMsg]
  have hf : findIndex (dupPred 10000 socketEchoMsg) [pendingTempMsg] = some 0 := by decide
  obtain ⟨hlen, hat, -⟩ := h.2.1 0 hf
  refine ⟨hlen, ?_⟩
  rw [hat]
  decide

/-! ### Pointwise characterization of the map-shaped updaters -/

theorem getD_of_getElem? {l : List Message} {i : Nat} {m : Message}
    (h : l[i]? = some m) (d : Message) : l.getD i d = m := by
  simp [List.getD_eq_getElem?_getD, h]

theorem handleSendFailure_at (tempId : String) {l : List Message} {i : Nat} {m : Message}
    (hm : l[i]? = some m) :
    (handleSendFailure tempId l)[i]? =
      some (if m._id == tempId then { m with sentStatus := some .error } else m) := by
  unfold handleSendFailure
  simp [List.getElem?_map, hm]

theorem handleRetryStart_at (messageId : String) {l : List Message} {i : Nat} {m : Message}
    (hm : l[i]? = some m) :
    (handleRetryStart messageId l)[i]? =
      some (if m._id == messageId then { m with sentStatus := some .sending } else m) := by
  unfold handleRetryStart
  simp [List.getElem?_map, hm]

theorem handleRetrySuccess_at (messageId : String) (sent : Message) {l : List Message}
    {i : Nat} {m : Message} (hm : l[i]? = some m) :
    (handleRetrySuccess messageId sent l)[i]? =
      some (if m._id == messageId then { sent with sentStatus := some .sent } else m) := by
  unfold handleRetrySuccess
  simp [List.getElem?_map, hm]

theorem handleRetryFailure_at (messageId : String) {l : List Message} {i : Nat} {m : Message}
    (hm : l[i]? = some m) :
    (handleRetryFailure messageId l)[i]? =
      some (if m._id == messageId then { m with sentStatus := some .error } else m) := by
  unfold handleRetryFailure
  simp [List.getElem?_map, hm]

theorem applySendSuccess_at (tempId : String) (sent : Message) {l : List Message}
    (htemp : l.any (fun m => m._id == tempId) = true)
    (hserver : l.any (fun m => m._id == sent._id) = false)
    {i : Nat} {m : Message} (hm : l[i]? = some m) :
    (applySendSuccess tempId sent l)[i]? =
      some (if m._id == tempId then { sent with sentStatus := some .sent } else m) := by
  unfold applySendSuccess
  simp only [htemp, hserver, Bool.not_true, Bool.false_or, Bool.or_false]
  simp [List.getElem?_map, hm]

theorem applySendSuccess_noop (tempId : String) (sent : Message) {l : List Message}
    (h : l.any (fun m => m._id == tempId) = false ∨ l.any (fun m => m._id == sent._id) = true) :
    applySendSuccess tempId sent l = l := by
  unfold applySendSuccess
  rcases h with h | h <;> simp [h]

theorem handleMessagesRead_at {uid nowIso eventCid cid : String} (h : eventCid = cid)
    {prev : List Message} {i : Nat} {m : Message} (hm : prev[i]? = some m) :
    (handleMessagesRead uid nowIso eventCid cid prev)[i]? =
      some (if m.sender == uid && jsFalsyStr m.readAt
            then { m with readAt := some nowIso } else m) := by
  unfold handleMessagesRead
  simp [h, List.getElem?_map, hm]

/-! ### C3 — optimistic append on submit -/

/-- C3: with non-empty trimmed input and a conversation id, the submit
handler immediately appends an optimistic message — id prefixed
`"temp-"`, sender the current user, content the trimmed input, status
`"sending"` — clears the input and issues exactly one request; with
whitespace-only input or no conversation id the state is unchanged and
no request is made. -/
theorem optimistic_send_appends (uid : String) (username : Option String) (nowMs : Int)
    (cid draft : String) (prev : List Message) :
    (jsTrim draft ≠ "" → cid ≠ "" →
      ∃ t : Message,
        (handleSendMessageStart uid username nowMs cid draft prev).messages = prev ++ [t] ∧
        (∃ suffix, t._id = "temp-" ++ suffix) ∧
        strStartsWith t._id "temp-" = true ∧
        t.sender = uid ∧
        t.content = jsTrim draft ∧
        t.sentStatus = some .sending ∧
        (handleSendMessageStart uid username nowMs cid draft prev).draft = "" ∧
        (handleSendMessageStart uid username nowMs cid draft prev).request
          = some (cid, jsTrim draft)) ∧
    ((jsTrim draft = "" ∨ cid = "") →
      handleSendMessageStart uid username nowMs cid draft prev = ⟨prev, draft, none⟩) := by
  constructor
  · intro h1 h2
    have hcond : (jsTrim draft == "" || cid == "") = false := by simp [h1, h2]
    refine ⟨{ _id := "temp-" ++ toString nowMs, conversation := cid, sender := uid
            , senderName := jsOrStr username "You", content := jsTrim draft
            , createdAt := nowMs, readAt := none, sentStatus := some .sending },
      ?_, ⟨toString nowMs, rfl⟩, ?_, rfl, rfl, rfl, ?_, ?_⟩
    · simp [handleSendMessageStart, hcond]
    · simp [strStartsWith, List.isPrefixOf_iff_prefix]
    · simp [handleSendMessageStart, hcond]
    · simp [handleSendMessageStart, hcond]
  · intro h
    rcases h with h | h <;> simp [handleSendMessageStart, h]

/-- C3 witness: submitting `" hi "` in conversation `"c1"` appends one
message, clears the input, and requests sending `"hi"`. -/
theorem optimistic_send_appends_witness :
    (handleSendMessageStart "u" (some "alice") 7 "c1" " hi " []).messages.length = 1 ∧
    (handleSendMessageStart "u" (some "alice") 7 "c1" " hi " []).draft = "" ∧
    (handleSendMessageStart "u" (some "alice") 7 "c1" " hi " []).request = some ("c1", "hi") := by
  obtain ⟨t, hmsg, -, -, -, -, -, hdraft, hreq⟩ :=
    (optimistic_send_appends "u" (some "alice") 7 "c1" " hi " []).1 (by decide) (by decide)
  refine ⟨by rw [hmsg]; simp, hdraft, by rw [hreq]; decide⟩

/-! ### C5 — `messages_read` frame effect -/

/-- C5: a `messages_read` event for the current conversation stamps
`readAt` with the current time on exactly those messages sent by the
current user whose `readAt` is unset, leaves every other message
unchanged, and adds or removes nothing; an event for a different
conversation leaves the whole list unchanged. -/
theorem messages_read_frame (uid nowIso eventCid cid : String) (prev : List Message) :
    ((handleMessagesRead uid nowIso eventCid cid prev).length = prev.length) ∧
    (eventCid = cid →
      ∀ (i : Nat) (m : Message), prev[i]? = some m →
        (handleMessagesRead uid nowIso eventCid cid prev)[i]? =
          some (if m.sender == uid && jsFalsyStr m.readAt
                then { m with readAt := some nowIso } else m)) ∧
    (eventCid ≠ cid → handleMessagesRead uid nowIso eventCid cid prev = prev) := by
  refine ⟨?_, ?_, ?_⟩
  · unfold handleMessagesRead
    by_cases h : eventCid == cid <;> simp [h]
  · intro h i m hm
    exact handleMessagesRead_at h hm
  · intro h
    unfold handleMessagesRead
    have hb : (eventCid == cid) = false := by simpa using h
    simp [hb]

/-- A message from the current user not yet marked read. -/
def unreadOwnMsg : Message :=
  { _id := "m3", conversation := "c", sender := "u", senderName := "You"
  , content := "yo", createdAt := 1, readAt := none, sentStatus := some .sent }

/-- A message from the other participant. -/
def otherPartyMsg : Message :=
  { _id := "m4", conversation := "c", sender := "v", senderName := "Ph"
  , content := "ok", createdAt := 2, readAt := none, sentStatus := none }

/-- C5 witness: a `messages_read` event for the current conversation
stamps the current user's unread message and leaves the other party's
message untouched. -/
theorem messages_read_frame_witness :
    (handleMessagesRead "u" "T1" "c" "c" [unreadOwnMsg, otherPartyMsg])[0]? =
      some { unreadOwnMsg with readAt := some "T1" } ∧
    (handleMessagesRead "u" "T1" "c" "c" [unreadOwnMsg, otherPartyMsg])[1]? =
      some otherPartyMsg := by
  have h := (messages_read_frame "u" "T1" "c" "c" [unreadOwnMsg, otherPartyMsg]).2.1 rfl
  have h0 := h 0 unreadOwnMsg (by decide)
  have h1 := h 1 otherPartyMsg (by decide)
  constructor
  · rw [h0]; decide
  · rw [h1]; decide

/-! ### C4 — send failure and manual retry -/

theorem sendFlow_failure_messages {uid : String} {username : Option String} {nowMs : Int}
    {cid draft : String} {prev : List Message} {outcome : SendOutcome}
    (hout : outcome = SendOutcome.nullResult ∨ outcome = SendOutcome.threw)
    (hcond : (jsTrim draft == "" || cid == "") = false) :
    (handleSendMessageFlow uid username nowMs cid draft outcome prev).messages =
      handleSendFailure ("temp-" ++ toString nowMs)
        (prev ++ [{ _id := "temp-" ++ toString nowMs, conversation := cid, sender := uid
                  , senderName := jsOrStr username "You", content := jsTrim draft
                  , createdAt := nowMs, readAt := none, sentStatus := some .sending }]) := by
  rcases hout with h | h <;> subst h <;>
    simp [handleSendMessageFlow, handleSendMessageStart, hcond]

/-- C4: a failed send (null result or thrown error) flips the optimistic
message to `"error"` after exactly one `sendMessage` call for the
submit, leaving every other message unchanged; a user-triggered retry
makes exactly one further call with the retried content, replacing the
failed message with the server-confirmed `"sent"` message on success or
restoring `"error"` on another failure, in every case leaving all other
messages unchanged. -/
theorem send_failure_and_retry (uid : String) (username : Option String) (nowMs : Int)
    (cid draft : String) (prev : List Message) (outcome : SendOutcome)
    (messageId content : String) (sent : Message) :
    (jsTrim draft ≠ "" → cid ≠ "" →
      (handleSendMessageFlow uid username nowMs cid draft outcome prev).sendCalls = 1) ∧
    ((outcome = .nullResult ∨ outcome = .threw) → jsTrim draft ≠ "" → cid ≠ "" →
      (∀ m ∈ prev, m._id ≠ "temp-" ++ toString nowMs) →
      (handleSendMessageFlow uid username nowMs cid draft outcome prev).messages.length
          = prev.length + 1 ∧
      ((handleSendMessageFlow uid username nowMs cid draft outcome prev).messages.getLast?).map
          Message.sentStatus = some (some .error) ∧
      (∀ i, i < prev.length →
        (handleSendMessageFlow uid username nowMs cid draft outcome prev).messages[i]?
          = prev[i]?)) ∧
    ((handleRetryMessageFlow messageId content (.ok sent) prev).sendCalls = 1 ∧
      (handleRetryMessageFlow messageId content (.ok sent) prev).sentContent = some content ∧
      (∀ (i : Nat) (m : Message), prev[i]? = some m →
        (handleRetryMessageFlow messageId content (.ok sent) prev).messages[i]? =
          some (if m._id == messageId then { sent with sentStatus := some .sent } else m))) ∧
    ((outcome = .nullResult ∨ outcome = .threw) →
      (handleRetryMessageFlow messageId content outcome prev).sendCalls = 1 ∧
      (handleRetryMessageFlow messageId content outcome prev).sentContent = some content ∧
      (∀ (i : Nat) (m : Message), prev[i]? = some m →
        (handleRetryMessageFlow messageId content outcome prev).messages[i]? =
          some (if m._id == messageId then { m with sentStatus := some .error } else m))) := by
  refine ⟨?_, ?_, ?_, ?_⟩
  · intro h1 h2
    have hcond : (jsTrim draft == "" || cid == "") = false := by simp [h1, h2]
    cases outcome <;> simp [handleSendMessageFlow, handleSendMessageStart, hcond]
  · intro hout h1 h2 hfresh
    have hcond : (jsTrim draft == "" || cid == "") = false := by simp [h1, h2]
    rw [sendFlow_failure_messages hout hcond]
    refine ⟨?_, ?_, ?_⟩
    · simp [handleSendFailure]
    · simp [handleSendFailure]
    · intro i hi
      have hm : (prev ++
          [{ _id := "temp-" ++ toString nowMs, conversation := cid, sender := uid
           , senderName := jsOrStr username "You", content := jsTrim draft
           , createdAt := nowMs, readAt := none, sentStatus := some .sending }])[i]?
          = some prev[i] := by
        simp [List.getElem?_append, hi, List.getElem?_eq_getElem hi]
      rw [handleSendFailure_at _ hm]
      have hne : (prev[i]._id == "temp-" ++ toString nowMs) = false := by
        simpa using hfresh prev[i] (List.getElem_mem hi)
      simp [hne, List.getElem?_eq_getElem hi]
  · refine ⟨rfl, rfl, ?_⟩
    intro i m hm
    simp only [handleRetryMessageFlow]
    have h1 := handleRetryStart_at messageId hm
    have h2 := handleRetrySuccess_at messageId sent h1
    rw [h2]
    by_cases hid : (m._id == messageId) <;> simp [hid]
  · intro hout
    have hmain : ∀ (i : Nat) (m : Message), prev[i]? = some m →
        (handleRetryFailure messageId (handleRetryStart messageId prev))[i]? =
          some (if m._id == messageId then { m with sentStatus := some .error } else m) := by
      intro i m hm
      have h1 := handleRetryStart_at messageId hm
      have h2 := handleRetryFailure_at messageId h1
      rw [h2]
      by_cases hid : (m._id == messageId) <;> simp [hid]
    rcases hout with h | h <;> subst h <;>
      exact ⟨rfl, rfl, fun i m hm => hmain i m hm⟩

/-- A failed outgoing message awaiting a manual retry. -/
def failedOwnMsg : Message :=
  { _id := "f1", conversation := "c", sender := "u", senderName := "You"
  , content := "hi", createdAt := 3, readAt := none, sentStatus := some .error }

/-- C4 witness: a failing submit makes one call and appends one message;
a failing retry of `failedOwnMsg` restores its `"error"` status. -/
theorem send_failure_and_retry_witness :
    (handleSendMessageFlow "u" (some "alice") 7 "c1" " hi " SendOutcome.nullResult
        [failedOwnMsg]).sendCalls = 1 ∧
    (handleSendMessageFlow "u" (some "alice") 7 "c1" " hi " SendOutcome.nullResult
        [failedOwnMsg]).messages.length = 2 ∧
    (handleRetryMessageFlow "f1" "hi" SendOutcome.nullResult [failedOwnMsg]).messages[0]? =
      some { failedOwnMsg with sentStatus := some SentStatus.error } := by
  obtain ⟨hcalls, hfail, -, hretry⟩ :=
    send_failure_and_retry "u" (some "alice") 7 "c1" " hi " [failedOwnMsg]
      SendOutcome.nullResult "f1" "hi" dummyMsg
  obtain ⟨hlen, -, -⟩ := hfail (Or.inl rfl) (by decide) (by decide) (by decide)
  obtain ⟨-, -, hat⟩ := hretry (Or.inl rfl)
  refine ⟨hcalls (by decide) (by decide), by rw [hlen]; rfl, ?_⟩
  have h0 := hat 0 failedOwnMsg (by decide)
  rw [h0]
  decide

/-! ### C2 — the sent-status state machine -/

theorem markDelivered_of_delivered {uid : String} {m : Message}
    (h : m.sentStatus = some SentStatus.delivered) : markDelivered uid m = m := by
  simp [markDelivered, h]

theorem markDelivered_readAt_eq (uid : String) (m : Message) :
    (markDelivered uid m).readAt = m.readAt := by
  unfold markDelivered
  split <;> rfl

theorem markDelivered_upgrade {uid : String} {m : Message} (hs : m.sender = uid)
    (h : m.sentStatus = some SentStatus.sent ∨ m.sentStatus = none) :
    markDelivered uid m = { m with sentStatus := some .delivered } := by
  rcases h with h | h <;> simp [markDelivered, hs, h]

/-- `after` is not behind `before` on the delivery ladder: a
`"delivered"` status and a truthy `readAt` are both preserved. -/
def NoBackslide (before after : Message) : Prop :=
  (before.sentStatus = some SentStatus.delivered →
    after.sentStatus = some SentStatus.delivered) ∧
  (jsFalsyStr before.readAt = false → jsFalsyStr after.readAt = false)

theorem noBackslide_refl (m : Message) : NoBackslide m m :=
  ⟨fun h => h, fun h => h⟩

/-- A pending optimistic message that a premature `messages_read` event
has already stamped as read. -/
def readStampedTempMsg : Message :=
  { _id := "temp-9", conversation := "c", sender := "u", senderName := "You"
  , content := "hi", createdAt := 0, readAt := some "2025-01-01T09:00:00Z"
  , sentStatus := some .sending }

/-- The server confirmation for `readStampedTempMsg`. -/
def confirmedServerMsg : Message :=
  { _id := "m9", conversation := "c", sender := "u", senderName := "You"
  , content := "hi", createdAt := 5, readAt := none, sentStatus := none }

/-- C2 counterexample: the success-path reconciliation replaces a
read-stamped optimistic message with the server message marked
`"sent"`, losing its `readAt` — an update other than the user-triggered
retry that moves a message backwards from the read state. -/
theorem send_success_backslides_read :
    jsFalsyStr readStampedTempMsg.readAt = false ∧
    (applySendSuccess "temp-9" confirmedServerMsg [readStampedTempMsg])[0]? =
      some { confirmedServerMsg with sentStatus := some SentStatus.sent } ∧
    jsFalsyStr ({ confirmedServerMsg with sentStatus := some SentStatus.sent }).readAt
      = true := by
  decide

/-- C2 (amended): the sent-status machine
`sending → sent → delivered → read | error`, with two carve-outs forced
by the code: a user-triggered retry moves an `"error"` message back to
`"sending"`, and the success-path reconciliation replaces the optimistic
message with the server message marked `"sent"`, dropping any `readAt` a
premature `messages_read` event had stamped on the optimistic copy.
Concretely: a send creates the message as `"sending"`; a successful send
with no prior echo moves the temp message to `"sent"`; an incoming
socket message upgrades the current user's `"sent)"`/status-less
messages to `"delivered"` and never moves any position backwards from
`"delivered"` or from a truthy `readAt`; a `messages_read` event stamps
`readAt` and never backslides; a failed send moves the `"sending"` temp
message to `"error"` and leaves every other message unchanged. -/
theorem sent_status_state_machine (uid : String) (username : Option String)
    (nowMs now : Int) (nm : Message) (nowIso eventCid cid draft tempId : String)
    (sent : Message) (messageId : String) (prev : List Message) :
    (jsTrim draft ≠ "" → cid ≠ "" →
      ((handleSendMessageStart uid username nowMs cid draft prev).messages.getLast?).map
        Message.sentStatus = some (some .sending)) ∧
    (prev.any (fun m => m._id == tempId) = true →
      prev.any (fun m => m._id == sent._id) = false →
      ∀ (i : Nat) (m : Message), prev[i]? = some m →
        (applySendSuccess tempId sent prev)[i]? =
          some (if m._id == tempId then { sent with sentStatus := some .sent } else m)) ∧
    (∀ (i : Nat) (m : Message), prev[i]? = some m → m.sender = uid →
      (m.sentStatus = some .sent ∨ m.sentStatus = none) →
      (∀ idx, findIndex (dupPred now nm) prev = some idx → i ≠ idx →
        (handleNewMessageUpdate uid now nm prev)[i]? =
          some { m with sentStatus := some .delivered }) ∧
      (findIndex (dupPred now nm) prev = none → nm.sender ≠ uid →
        (handleNewMessageUpdate uid now nm prev)[i]? =
          some { m with sentStatus := some .delivered })) ∧
    (∀ (i : Nat) (m : Message), prev[i]? = some m →
      ∃ m', (handleNewMessageUpdate uid now nm prev)[i]? = some m' ∧ NoBackslide m m') ∧
    (∀ (i : Nat) (m : Message), prev[i]? = some m →
      ∃ m', (handleMessagesRead uid nowIso eventCid cid prev)[i]? = some m' ∧
        NoBackslide m m' ∧ m'.sentStatus = m.sentStatus ∧
        (eventCid = cid → m.sender = uid → jsFalsyStr m.readAt = true →
          m'.readAt = some nowIso)) ∧
    (∀ (i : Nat) (m : Message), prev[i]? = some m →
      (handleSendFailure tempId prev)[i]? =
        some (if m._id == tempId then { m with sentStatus := some .error } else m)) ∧
    ((∀ m ∈ prev, m._id = tempId → m.sentStatus = some .sending) →
      ∀ (i : Nat) (m : Message), prev[i]? = some m →
        ∃ m', (handleSendFailure tempId prev)[i]? = some m' ∧ NoBackslide m m') ∧
    (∀ (i : Nat) (m : Message), prev[i]? = some m →
      (handleRetryStart messageId prev)[i]? =
        some (if m._id == messageId then { m with sentStatus := some .sending } else m)) ∧
    ((∀ m ∈ prev, m._id = tempId → m.sentStatus = some .sending) →
      ∀ (i : Nat) (m : Message), prev[i]? = some m → m.sentStatus = some .delivered →
        ∃ m', (applySendSuccess tempId sent prev)[i]? = some m' ∧
          m'.sentStatus = some .delivered) := by
  refine ⟨?_, ?_, ?_, ?_, ?_, ?_, ?_, ?_, ?_⟩
  · intro h1 h2
    have hcond : (jsTrim draft == "" || cid == "") = false := by simp [h1, h2]
    simp [handleSendMessageStart, hcond]
  · intro htemp hserver i m hm
    exact applySendSuccess_at tempId sent htemp hserver hm
  · intro i m hm hs hstat
    constructor
    · intro idx hf hne
      rw [handleNewMessageUpdate_found_away hf hne, hm]
      simp [markDelivered_upgrade hs hstat]
    · intro hf hnm
      rw [handleNewMessageUpdate_none_eq hf]
      have hb : (nm.sender == uid) = false := by simpa using hnm
      have hi : i < prev.length := by
        rcases List.getElem?_eq_some.mp hm with ⟨h, -⟩
        exact h
      rw [hb]
      simp only [if_neg Bool.false_ne_true]
      rw [List.getElem?_append_left (by simpa using hi)]
      simp [List.getElem?_map, hm, markDelivered_upgrade hs hstat]
  · intro i m hm
    cases hf : findIndex (dupPred now nm) prev with
    | some idx =>
      by_cases hii : i = idx
      · subst hii
        rw [handleNewMessageUpdate_found_at hf, getD_of_getElem? hm]
        refine ⟨_, rfl, fun _ => rfl, ?_⟩
        intro hr
        simp [jsOrOptStr, hr]
      · rw [handleNewMessageUpdate_found_away hf hii, hm]
        refine ⟨markDelivered uid m, rfl, ?_, ?_⟩
        · intro hd
          rw [markDelivered_of_delivered hd]
          exact hd
        · intro hr
          rw [markDelivered_readAt_eq]
          exact hr
    | none =>
      rw [handleNewMessageUpdate_none_eq hf]
      have hi : i < prev.length := by
        rcases List.getElem?_eq_some.mp hm with ⟨h, -⟩
        exact h
      by_cases hb : nm.sender == uid
      · rw [if_pos hb, List.getElem?_append_left (by simpa using hi), hm]
        exact ⟨m, rfl, noBackslide_refl m⟩
      · rw [if_neg hb, List.getElem?_append_left (by simpa using hi)]
        rw [show (prev.map (markDelivered uid))[i]? = some (markDelivered uid m) by
          simp [List.getElem?_map, hm]]
        refine ⟨markDelivered uid m, rfl, ?_, ?_⟩
        · intro hd
          rw [markDelivered_of_delivered hd]
          exact hd
        · intro hr
          rw [markDelivered_readAt_eq]
          exact hr
  · intro i m hm
    by_cases heq : eventCid = cid
    · rw [handleMessagesRead_at heq hm]
      by_cases hc : (m.sender == uid && jsFalsyStr m.readAt) = true
      · refine ⟨{ m with readAt := some nowIso }, by simp [hc], ⟨fun h => h, ?_⟩, rfl, ?_⟩
        · intro hr
          rw [Bool.and_eq_true] at hc
          rw [hc.2] at hr
          cases hr
        · intro _ _ _
          rfl
      · refine ⟨m, by simp [hc], noBackslide_refl m, rfl, ?_⟩
        intro _ hs hr
        exact absurd (by simp [hs, hr]) hc
    · have hall : handleMessagesRead uid nowIso eventCid cid prev = prev := by
        unfold handleMessagesRead
        have hb : (eventCid == cid) = false := by simpa using heq
        simp [hb]
      rw [hall, hm]
      exact ⟨m, rfl, noBackslide_refl m, rfl, fun hcid => absurd hcid heq⟩
  · intro i m hm
    exact handleSendFailure_at tempId hm
  · intro hsend i m hm
    by_cases hid : (m._id == tempId) = true
    · have hsending : m.sentStatus = some .sending :=
        hsend m (List.getElem?_mem hm) (by simpa using hid)
      refine ⟨{ m with sentStatus := some .error },
        by rw [handleSendFailure_at tempId hm]; simp [hid], ?_, ?_⟩
      · intro hd
        rw [hsending] at hd
        cases hd
      · intro hr
        simpa using hr
    · refine ⟨m, by rw [handleSendFailure_at tempId hm]; simp [hid], noBackslide_refl m⟩
  · intro i m hm
    exact handleRetryStart_at messageId hm
  · intro hsend i m hm hd
    by_cases htemp : prev.any (fun m => m._id == tempId) = true
    · by_cases hserver : prev.any (fun m => m._id == sent._id) = true
      · rw [applySendSuccess_noop tempId sent (Or.inr hserver), hm]
        exact ⟨m, rfl, hd⟩
      · have hserver' : prev.any (fun m => m._id == sent._id) = false := by
          simpa using hserver
        rw [applySendSuccess_at tempId sent htemp hserver' hm]
        have hid : (m._id == tempId) = false := by
          by_contra h'
          have h'' : (m._id == tempId) = true := by simpa using h'
          have := hsend m (List.getElem?_mem hm) (by simpa using h'')
          rw [this] at hd
          cases hd
        exact ⟨m, by simp [hid], hd⟩
    · have htemp' : prev.any (fun m => m._id == tempId) = false := by simpa using htemp
      rw [applySendSuccess_noop tempId sent (Or.inl htemp'), hm]
      exact ⟨m, rfl, hd⟩

/-- C2 witness: with one failed message in the list, a fresh submit ends
in a `"sending"` temp message, and a retry start flips the failed
message back to `"sending"`. -/
theorem sent_status_state_machine_witness :
    ((handleSendMessageStart "u" (some "alice") 7 "c1" " hi " [failedOwnMsg]).messages.getLast?).map
      Message.sentStatus = some (some SentStatus.sending) ∧
    (handleRetryStart "f1" [failedOwnMsg])[0]? =
      some { failedOwnMsg with sentStatus := some SentStatus.sending } := by
  obtain ⟨h1, -, -, -, -, -, -, h7, -⟩ :=
    sent_status_state_machine "u" (some "alice") 7 0 dummyMsg "T" "c" "c" " hi " "temp-7"
      dummyMsg "f1" [failedOwnMsg]
  refine ⟨h1 (by decide) (by decide), ?_⟩
  have h0 := h7 0 failedOwnMsg (by decide)
  rw [h0]
  decide

/-! ### C6 — `getMessages` envelope normalization -/

/-- C6: every recognized envelope — `{messages: [...]}`, a bare array,
or `{data: [...]}` — normalizes to the same client list, each API
message mapped to `content = message`, `sender = sender._id`,
`senderName = username` or else `"firstName lastName"`,
`conversation =` the requested id, and `readAt` set iff `read`; any
other body shape, an empty conversation id, a non-OK status,
unparseable JSON or a network error yields `[]` (the function is total,
so it never throws). -/
theorem getMessages_normalizes (cid nowIso : String) (resp : HttpOutcome GetMessagesBody)
    (msgs : List ApiMessage) :
    (cid ≠ "" →
      (resp = .ok (.withMessages msgs) ∨ resp = .ok (.bareArray msgs) ∨
          resp = .ok (.withData msgs)) →
      getMessages cid nowIso resp = msgs.map (apiToClientMessage cid nowIso)) ∧
    (∀ msg : ApiMessage,
      (apiToClientMessage cid nowIso msg).content = msg.message ∧
      (apiToClientMessage cid nowIso msg).sender = msg.sender._id ∧
      (apiToClientMessage cid nowIso msg).senderName =
        jsOrStr msg.sender.username (msg.sender.firstName ++ " " ++ msg.sender.lastName) ∧
      (apiToClientMessage cid nowIso msg).conversation = cid ∧
      ((apiToClientMessage cid nowIso msg).readAt ≠ none ↔ msg.read = true)) ∧
    (cid = "" → getMessages cid nowIso resp = []) ∧
    (cid ≠ "" →
      (resp = .ok .other ∨ resp = .okBadJson ∨ resp = .notOk ∨ resp = .networkError) →
      getMessages cid nowIso resp = []) := by
  refine ⟨?_, ?_, ?_, ?_⟩
  · intro h1 h2
    have hb : (cid == "") = false := by simpa using h1
    rcases h2 with h | h | h <;> subst h <;> simp [getMessages, hb]
  · intro msg
    refine ⟨rfl, rfl, rfl, rfl, ?_⟩
    by_cases hr : msg.read <;> simp [apiToClientMessage, hr]
  · intro h
    subst h
    simp [getMessages]
  · intro h1 h2
    have hb : (cid == "") = false := by simpa using h1
    rcases h2 with h | h | h | h <;> subst h <;> simp [getMessages, hb]

/-- A backend user with no username, forcing the name fallback. -/
def sampleApiUser : ApiUser :=
  { _id := "u1", username := none, firstName := "Jo", lastName := "Doe"
  , userType := "patient" }

/-- A backend message already read by its receiver. -/
def sampleApiMessage : ApiMessage :=
  { _id := "am1", sender := sampleApiUser, receiver := sampleApiUser
  , message := "hello", read := true, createdAt := 4 }

/-- C6 witness: the `{data: [...]}` envelope maps to the client shape,
with the `"firstName lastName"` fallback and a stamped `readAt`. -/
theorem getMessages_normalizes_witness :
    getMessages "c1" "T2" (.ok (.withData [sampleApiMessage])) =
      [{ _id := "am1", conversation := "c1", sender := "u1", senderName := "Jo Doe"
       , content := "hello", createdAt := 4, readAt := some "T2", sentStatus := none }] := by
  have h := (getMessages_normalizes "c1" "T2" (.ok (.withData [sampleApiMessage]))
      [sampleApiMessage]).1 (by decide) (Or.inr (Or.inr rfl))
  rw [h]
  decide

/-! ### C10 — `sendMessage` failure modes -/

/-- C10: `sendMessage` returns `null` without throwing on an empty
conversation id, on unparseable JSON after an OK status, and on an
unrecognized body with no success indicator; it throws on a non-OK
status (the catch block rethrows); and on a bare success indicator it
fabricates a client message whose id starts with `"temp-"`, whose
content is the input content and whose sender is the current user's
id. -/
theorem sendMessage_failure_modes (user : Option DecodedToken) (nowMs : Int)
    (nowIso cid content : String) (resp : HttpOutcome SendMessageBody) :
    (cid = "" → sendMessage user nowMs nowIso cid content resp = .ok none) ∧
    (cid ≠ "" → resp = .okBadJson →
      sendMessage user nowMs nowIso cid content resp = .ok none) ∧
    (cid ≠ "" → resp = .ok .other →
      sendMessage user nowMs nowIso cid content resp = .ok none) ∧
    (cid ≠ "" → (resp = .notOk ∨ resp = .networkError) →
      ∃ e, sendMessage user nowMs nowIso cid content resp = .error e) ∧
    (cid ≠ "" → resp = .ok .successOnly →
      ∃ m : Message, sendMessage user nowMs nowIso cid content resp = .ok (some m) ∧
        (∃ suffix, m._id = "temp-" ++ suffix) ∧
        strStartsWith m._id "temp-" = true ∧
        m.content = content ∧
        m.sender = jsOrStr (user.map (fun u => u._id)) "") := by
  have hbOf : cid ≠ "" → (cid == "") = false := fun h => by simpa using h
  refine ⟨?_, ?_, ?_, ?_, ?_⟩
  · intro h
    subst h
    simp [sendMessage]
  · intro h1 h2
    subst h2
    simp [sendMessage, hbOf h1]
  · intro h1 h2
    subst h2
    simp [sendMessage, hbOf h1]
  · intro h1 h2
    rcases h2 with h | h <;> subst h
    · exact ⟨"Failed to send message", by simp [sendMessage, hbOf h1]⟩
    · exact ⟨"network error", by simp [sendMessage, hbOf h1]⟩
  · intro h1 h2
    subst h2
    refine ⟨{ _id := "temp-" ++ toString nowMs, conversation := cid
            , sender := jsOrStr (user.map (fun u => u._id)) ""
            , senderName := jsOrStr (user.map (fun u => u.username)) "You"
            , content := content, createdAt := nowMs, readAt := none, sentStatus := none },
      by simp [sendMessage, hbOf h1], ⟨toString nowMs, rfl⟩, ?_, rfl, rfl⟩
    simp [strStartsWith, List.isPrefixOf_iff_prefix]

/-- C10 witness: the empty-id and bad-JSON paths return `.ok none` at
concrete inputs. -/
theorem sendMessage_failure_modes_witness :
    sendMessage none 7 "T3" "" "x" (.ok .successOnly) = .ok none ∧
    sendMessage none 7 "T3" "c1" "x" .okBadJson = .ok none := by
  refine ⟨(sendMessage_failure_modes none 7 "T3" "" "x" (.ok .successOnly)).1 rfl, ?_⟩
  exact (sendMessage_failure_modes none 7 "T3" "c1" "x" .okBadJson).2.1 (by decide) rfl

/-! ### C8 — authenticated-layout and pharmacy-page guards -/

/-- C8: under the authenticated layout, a missing token, an undecodable
token, or an `exp` not greater than the current time in seconds
(`exp > nowMs / 1000` rendered over the integers as
`exp * 1000 > nowMs`) redirects to `/login`; on the pharmacy
patient-chat page, a decoded user whose `userType` is not `"pharmacy"`
(or no decodable user at all) is redirected to `/dashboard`. -/
theorem auth_guard_redirects (decode : String → Option DecodedToken)
    (storedToken : Option String) (nowMs : Int) :
    (storedToken = none → authLayoutRedirect decode storedToken nowMs = some "/login") ∧
    (∀ t, storedToken = some t → decode t = none →
      authLayoutRedirect decode storedToken nowMs = some "/login") ∧
    (∀ t d, storedToken = some t → decode t = some d → d.exp * 1000 ≤ nowMs →
      authLayoutRedirect decode storedToken nowMs = some "/login") ∧
    (∀ t d, storedToken = some t → decode t = some d → d.exp * 1000 > nowMs →
      authLayoutRedirect decode storedToken nowMs = none) ∧
    (getUserInfo decode storedToken = none →
      pharmacyChatGuard decode storedToken = some "/dashboard") ∧
    (∀ u, getUserInfo decode storedToken = some u → u.userType ≠ "pharmacy" →
      pharmacyChatGuard decode storedToken = some "/dashboard") ∧
    (∀ u, getUserInfo decode storedToken = some u → u.userType = "pharmacy" →
      pharmacyChatGuard decode storedToken = none) := by
  refine ⟨?_, ?_, ?_, ?_, ?_, ?_, ?_⟩
  · intro h
    subst h
    simp [authLayoutRedirect, isAuthenticated]
  · intro t ht hd
    subst ht
    simp [authLayoutRedirect, isAuthenticated, hd]
  · intro t d ht hd hexp
    subst ht
    have hlt : ¬ (d.exp * 1000 > nowMs) := not_lt.mpr hexp
    simp [authLayoutRedirect, isAuthenticated, hd, hlt]
  · intro t d ht hd hexp
    subst ht
    simp [authLayoutRedirect, isAuthenticated, hd, hexp]
  · intro h
    simp [pharmacyChatGuard, h]
  · intro u hu hty
    have hb : (u.userType == "pharmacy") = false := by simpa using hty
    simp [pharmacyChatGuard, hu, hb]
  · intro u hu hty
    simp [pharmacyChatGuard, hu, hty]

/-- A decoded token for the pharmacy user, expiring at second 100. -/
def samplePharmacyToken : DecodedToken :=
  { id := "p1", _id := "", email := "p@x", username := "ph", userType := "pharmacy"
  , firstName := "Ph", lastName := "One", exp := 100 }

/-- A decode oracle accepting only the string `"good"`. -/
def sampleDecode : String → Option DecodedToken :=
  fun t => if t == "good" then some samplePharmacyToken else none

/-- C8 witness: an expired token redirects to `/login`; an undecodable
token leaves the pharmacy page for `/dashboard`; a live pharmacy token
passes both guards. -/
theorem auth_guard_redirects_witness :
    authLayoutRedirect sampleDecode (some "good") 200000 = some "/login" ∧
    authLayoutRedirect sampleDecode (some "good") 50000 = none ∧
    pharmacyChatGuard sampleDecode (some "bad") = some "/dashboard" := by
  obtain ⟨-, -, hexpired, hlive, hnouser, -, -⟩ :=
    auth_guard_redirects sampleDecode (some "good") 200000
  obtain ⟨-, -, -, hlive', -, -, -⟩ := auth_guard_redirects sampleDecode (some "good") 50000
  obtain ⟨-, -, -, -, hbad, -, -⟩ := auth_guard_redirects sampleDecode (some "bad") 0
  refine ⟨hexpired "good" samplePharmacyToken rfl (by decide) (by decide),
    hlive' "good" samplePharmacyToken rfl (by decide) (by decide),
    hbad (by decide)⟩

/-! ### C9 — the socket singleton -/

/-- C9: `initializeSocket` is idempotent — with an existing handle it
returns that very handle and opens no new connection; with no handle
and no stored token it returns `null` and creates nothing;
`disconnectSocket` clears the handle, after which `joinConversation`
re-initializes (when a token is stored) while `leaveConversation`
returns false without emitting. -/
theorem socket_singleton (s : SockSt) (cid : String) :
    (∀ h, s.socket = some h → initializeSocket s = (s, some h)) ∧
    (s.socket = none → s.token = none → initializeSocket s = (s, none)) ∧
    ((disconnectSocket s).socket = none) ∧
    (∀ tok, s.token = some tok →
      (joinConversation cid (disconnectSocket s)).2 = true ∧
      ((joinConversation cid (disconnectSocket s)).1.socket).isSome = true ∧
      (joinConversation cid (disconnectSocket s)).1.emitted =
        s.emitted ++ [("join_conversation", .conversationId cid)]) ∧
    ((leaveConversation cid (disconnectSocket s)).2 = false ∧
      (leaveConversation cid (disconnectSocket s)).1.emitted = s.emitted) := by
  refine ⟨?_, ?_, ?_, ?_, ?_⟩
  · intro h hh
    simp [initializeSocket, hh]
  · intro h1 h2
    simp [initializeSocket, h1, h2]
  · cases hs : s.socket <;> simp [disconnectSocket, hs]
  · intro tok htok
    have hds : (disconnectSocket s).socket = none := by
      cases hs : s.socket <;> simp [disconnectSocket, hs]
    have hdt : (disconnectSocket s).token = s.token := by
      cases hs : s.socket <;> simp [disconnectSocket, hs]
    have hde : (disconnectSocket s).emitted = s.emitted := by
      cases hs : s.socket <;> simp [disconnectSocket, hs]
    refine ⟨?_, ?_, ?_⟩ <;>
      simp [joinConversation, getOrInitSocket, initializeSocket, hds, hdt, hde, htok]
  · have hds : (disconnectSocket s).socket = none := by
      cases hs : s.socket <;> simp [disconnectSocket, hs]
    have hde : (disconnectSocket s).emitted = s.emitted := by
      cases hs : s.socket <;> simp [disconnectSocket, hs]
    constructor <;> simp [leaveConversation, hds, hde]

/-- C9 witness: an existing handle is returned unchanged, and leaving
after a disconnect fails without emitting. -/
theorem socket_singleton_witness :
    initializeSocket
        { socket := some 5, nextId := 6, token := some "tok", emitted := [], subscribed := [] }
      = ({ socket := some 5, nextId := 6, token := some "tok", emitted := [], subscribed := [] },
          some 5) ∧
    (leaveConversation "c" (disconnectSocket
        { socket := some 5, nextId := 6, token := some "tok", emitted := []
        , subscribed := [] })).2 = false := by
  obtain ⟨hidem, -, -, -, hleave⟩ := socket_singleton
    { socket := some 5, nextId := 6, token := some "tok", emitted := [], subscribed := [] } "c"
  exact ⟨hidem 5 rfl, hleave.1⟩

/-! ### C7 — the socket service's event surface -/

theorem setupListenerOn_spec (event : String) (s : SockSt) :
    (setupListenerOn event s).2 = (s.socket.isSome || s.token.isSome) ∧
    (setupListenerOn event s).1.subscribed = s.subscribed ++
      (if s.socket.isSome || s.token.isSome then [event] else []) ∧
    (setupListenerOn event s).1.emitted = s.emitted := by
  cases hs : s.socket <;> cases ht : s.token <;>
    simp [setupListenerOn, getOrInitSocket, initializeSocket, hs, ht]

/-- C7 (amended): the service emits to the server only
`join_conversation`, `leave_conversation` and `reminder_response`
(with `snoozeMinutes = snoozeMinutes || 15` for a snooze, `undefined`
otherwise), and the five listener-setup functions subscribe exactly to
`new_message`, `messages_read`, `medication_reminder`,
`reminder_update` and `reminder_error`; each of these returns true when
a socket exists or can be initialized from a stored token — except
`leaveConversation`, which returns false whenever no handle currently
exists, making no initialization attempt. -/
theorem socket_event_surface (s : SockSt) (cid medicationId reminderId : String)
    (action : ReminderAction) (snoozeMinutes : Option Int) :
    ((joinConversation cid s).2 = (s.socket.isSome || s.token.isSome) ∧
      (joinConversation cid s).1.emitted = s.emitted ++
        (if s.socket.isSome || s.token.isSome
         then [("join_conversation", EmitPayload.conversationId cid)] else []) ∧
      (joinConversation cid s).1.subscribed = s.subscribed) ∧
    ((leaveConversation cid s).2 = s.socket.isSome ∧
      (leaveConversation cid s).1.emitted = s.emitted ++
        (if s.socket.isSome
         then [("leave_conversation", EmitPayload.conversationId cid)] else []) ∧
      (leaveConversation cid s).1.subscribed = s.subscribed) ∧
    ((sendReminderResponse medicationId reminderId action snoozeMinutes s).2
        = (s.socket.isSome || s.token.isSome) ∧
      (sendReminderResponse medicationId reminderId action snoozeMinutes s).1.emitted
        = s.emitted ++
          (if s.socket.isSome || s.token.isSome
           then [("reminder_response",
              EmitPayload.reminderResponse medicationId reminderId action
                (match action with
                 | .snooze => some (match snoozeMinutes with
                     | some n => if n == 0 then 15 else n
                     | none => 15)
                 | _ => none))] else []) ∧
      (sendReminderResponse medicationId reminderId action snoozeMinutes s).1.subscribed
        = s.subscribed) ∧
    ((setupMessageListener s).2 = (s.socket.isSome || s.token.isSome) ∧
      (setupMessageListener s).1.subscribed = s.subscribed ++
        (if s.socket.isSome || s.token.isSome then ["new_message"] else []) ∧
      (setupMessageListener s).1.emitted = s.emitted) ∧
    ((setupMessagesReadListener s).2 = (s.socket.isSome || s.token.isSome) ∧
      (setupMessagesReadListener s).1.subscribed = s.subscribed ++
        (if s.socket.isSome || s.token.isSome then ["messages_read"] else []) ∧
      (setupMessagesReadListener s).1.emitted = s.emitted) ∧
    ((setupMedicationReminderListener s).2 = (s.socket.isSome || s.token.isSome) ∧
      (setupMedicationReminderListener s).1.subscribed = s.subscribed ++
        (if s.socket.isSome || s.token.isSome then ["medication_reminder"] else []) ∧
      (setupMedicationReminderListener s).1.emitted = s.emitted) ∧
    ((setupReminderUpdateListener s).2 = (s.socket.isSome || s.token.isSome) ∧
      (setupReminderUpdateListener s).1.subscribed = s.subscribed ++
        (if s.socket.isSome || s.token.isSome then ["reminder_update"] else []) ∧
      (setupReminderUpdateListener s).1.emitted = s.emitted) ∧
    ((setupErrorListener s).2 = (s.socket.isSome || s.token.isSome) ∧
      (setupErrorListener s).1.subscribed = s.subscribed ++
        (if s.socket.isSome || s.token.isSome then ["reminder_error"] else []) ∧
      (setupErrorListener s).1.emitted = s.emitted) := by
  refine ⟨?_, ?_, ?_,
    setupListenerOn_spec "new_message" s,
    setupListenerOn_spec "messages_read" s,
    setupListenerOn_spec "medication_reminder" s,
    setupListenerOn_spec "reminder_update" s,
    setupListenerOn_spec "reminder_error" s⟩
  · cases hs : s.socket <;> cases ht : s.token <;>
      simp [joinConversation, getOrInitSocket, initializeSocket, hs, ht]
  · cases hs : s.socket <;> simp [leaveConversation, hs]
  · cases hs : s.socket <;> cases ht : s.token <;>
      simp [sendReminderResponse, getOrInitSocket, initializeSocket, hs, ht]

/-- A state with no live socket handle but a stored auth token. -/
def tokenOnlySockSt : SockSt :=
  { socket := none, nextId := 0, token := some "tok", emitted := [], subscribed := [] }

/-- C7 counterexample: with no live handle but a stored token the socket
can be initialized, yet `leaveConversation` returns false and emits
nothing — refuting the claim that every emit returns true whenever a
socket exists or can be initialized. -/
theorem leaveConversation_no_init :
    ((initializeSocket tokenOnlySockSt).2).isSome = true ∧
    (leaveConversation "c" tokenOnlySockSt).2 = false ∧
    (leaveConversation "c" tokenOnlySockSt).1.emitted = [] := by
  decide

end MedTrack
